import Mathlib

/-!
Verification of the Drone-Backend telemetry and navigation server.

This file shallowly embeds the parts of the repository that the claims
concern and proves or refutes each claim about them:

* the angle-normalization helpers, bearing and haversine computation and
  the FRONT/RIGHT/LEFT/BACK direction classifier of `server.py`
  (`normalize_angle`, `normalize_diff`, `haversine`, `bearing_to_target`,
  `decide_direction`, `calculate_direction`);
* the signal-strength converters (`rssi_to_percent`, `percent_to_rssi`);
* the ingestion endpoints (`receive_rssi`, `receive_safe_coordinates`)
  and the read-side log queries (`get_history`, `get_signal`);
* the IoT keyed state of `iot_controller.py` (`trigger_variable`,
  `get_trigger_status`, `reset_iot_data`) together with a small
  interleaving model of the lock-protected critical section of the
  trigger-setting handler.

Conventions: Python floats are modelled as real numbers where the code
performs transcendental arithmetic and as rationals where the code only
adds, multiplies, compares and truncates, so that the latter definitions
evaluate.  Timestamps and client addresses are opaque strings passed in
as parameters (the code obtains them from the clock and the request).
-/

/-! ### GeoMath: angle normalization (server.py lines 396-411)

`normalize_angle` runs two while-loops: first `while angle < 0: angle += 360`,
then `while angle >= 360: angle -= 360`.  `normalize_diff` runs
`while diff > 180: diff -= 360`, then `while diff < -180: diff += 360`.
Each loop is embedded as its own recursive function. -/

/-- First loop of `normalize_angle`: `while angle < 0: angle += 360`. -/
noncomputable def na_loop1 (a : ℝ) : ℝ :=
  if h : a < 0 then na_loop1 (a + 360) else a
termination_by (⌈-a / 360⌉).toNat
decreasing_by
  have e : -(a + 360) / 360 = -a / 360 - 1 := by ring
  rw [e, Int.ceil_sub_one]
  have hpos : 0 < ⌈-a / 360⌉ :=
    Int.ceil_pos.mpr (div_pos (neg_pos.mpr h) (by norm_num))
  omega

/-- Second loop of `normalize_angle`: `while angle >= 360: angle -= 360`. -/
noncomputable def na_loop2 (a : ℝ) : ℝ :=
  if h : 360 ≤ a then na_loop2 (a - 360) else a
termination_by (⌊a / 360⌋).toNat
decreasing_by
  have e : (a - 360) / 360 = a / 360 - 1 := by ring
  rw [e, Int.floor_sub_one]
  have hpos : 1 ≤ ⌊a / 360⌋ := by
    rw [Int.le_floor]
    rw [show ((1 : ℤ) : ℝ) = 1 by norm_num, le_div_iff₀ (by norm_num : (0:ℝ) < 360)]
    linarith
  omega

/-- `normalize_angle(angle)` from server.py: keep angle in `[0, 360)`. -/
noncomputable def normalize_angle (angle : ℝ) : ℝ :=
  na_loop2 (na_loop1 angle)

/-- First loop of `normalize_diff`: `while diff > 180: diff -= 360`. -/
noncomputable def nd_loop1 (d : ℝ) : ℝ :=
  if h : 180 < d then nd_loop1 (d - 360) else d
termination_by (⌈(d - 180) / 360⌉).toNat
decreasing_by
  have e : (d - 360 - 180) / 360 = (d - 180) / 360 - 1 := by ring
  rw [e, Int.ceil_sub_one]
  have hpos : 0 < ⌈(d - 180) / 360⌉ :=
    Int.ceil_pos.mpr (div_pos (by linarith) (by norm_num))
  omega

/-- Second loop of `normalize_diff`: `while diff < -180: diff += 360`. -/
noncomputable def nd_loop2 (d : ℝ) : ℝ :=
  if h : d < -180 then nd_loop2 (d + 360) else d
termination_by (⌈(-180 - d) / 360⌉).toNat
decreasing_by
  have e : (-180 - (d + 360)) / 360 = (-180 - d) / 360 - 1 := by ring
  rw [e, Int.ceil_sub_one]
  have hpos : 0 < ⌈(-180 - d) / 360⌉ :=
    Int.ceil_pos.mpr (div_pos (by linarith) (by norm_num))
  omega

/-- `normalize_diff(diff)` from server.py: the two wrap loops in sequence. -/
noncomputable def normalize_diff (diff : ℝ) : ℝ :=
  nd_loop2 (nd_loop1 diff)

/-- The four direction labels returned by `decide_direction`. -/
inductive Direction : Type
  | FRONT
  | RIGHT
  | LEFT
  | BACK
deriving DecidableEq, Repr

/-- `decide_direction(heading, target_bearing)` from server.py lines 433-443:
`diff = normalize_diff(target_bearing - heading)`, then
`abs(diff) <= 15` gives FRONT, `diff > 15 and diff <= 90` RIGHT,
`diff < -15 and diff >= -90` LEFT, else BACK. -/
noncomputable def decide_direction (heading target_bearing : ℝ) : Direction :=
  let diff := normalize_diff (target_bearing - heading)
  if |diff| ≤ 15 then .FRONT
  else if 15 < diff ∧ diff ≤ 90 then .RIGHT
  else if diff < -15 ∧ -90 ≤ diff then .LEFT
  else .BACK

/-! ### Range lemmas for the normalization loops -/

theorem na_loop1_nonneg (a : ℝ) : 0 ≤ na_loop1 a := by
  rw [na_loop1]
  split
  · exact na_loop1_nonneg (a + 360)
  · linarith [not_lt.mp (by assumption : ¬ a < 0)]
termination_by (⌈-a / 360⌉).toNat
decreasing_by
  have e : -(a + 360) / 360 = -a / 360 - 1 := by ring
  rw [e, Int.ceil_sub_one]
  have hpos : 0 < ⌈-a / 360⌉ :=
    Int.ceil_pos.mpr (div_pos (neg_pos.mpr (by assumption)) (by norm_num))
  omega

theorem na_loop2_nonneg (a : ℝ) (ha : 0 ≤ a) : 0 ≤ na_loop2 a := by
  rw [na_loop2]
  split
  · exact na_loop2_nonneg (a - 360) (by linarith [(by assumption : 360 ≤ a)])
  · exact ha
termination_by (⌊a / 360⌋).toNat
decreasing_by
  have e : (a - 360) / 360 = a / 360 - 1 := by ring
  rw [e, Int.floor_sub_one]
  have hpos : 1 ≤ ⌊a / 360⌋ := by
    rw [Int.le_floor]
    rw [show ((1 : ℤ) : ℝ) = 1 by norm_num, le_div_iff₀ (by norm_num : (0:ℝ) < 360)]
    linarith [(by assumption : 360 ≤ a)]
  omega

theorem na_loop2_lt (a : ℝ) : na_loop2 a < 360 := by
  rw [na_loop2]
  split
  · exact na_loop2_lt (a - 360)
  · exact lt_of_not_le (by assumption)
termination_by (⌊a / 360⌋).toNat
decreasing_by
  have e : (a - 360) / 360 = a / 360 - 1 := by ring
  rw [e, Int.floor_sub_one]
  have hpos : 1 ≤ ⌊a / 360⌋ := by
    rw [Int.le_floor]
    rw [show ((1 : ℤ) : ℝ) = 1 by norm_num, le_div_iff₀ (by norm_num : (0:ℝ) < 360)]
    linarith [(by assumption : 360 ≤ a)]
  omega

theorem nd_loop1_le (d : ℝ) : nd_loop1 d ≤ 180 := by
  rw [nd_loop1]
  split
  · exact nd_loop1_le (d - 360)
  · exact le_of_not_lt (by assumption)
termination_by (⌈(d - 180) / 360⌉).toNat
decreasing_by
  have e : (d - 360 - 180) / 360 = (d - 180) / 360 - 1 := by ring
  rw [e, Int.ceil_sub_one]
  have hpos : 0 < ⌈(d - 180) / 360⌉ :=
    Int.ceil_pos.mpr (div_pos (by linarith [(by assumption : 180 < d)]) (by norm_num))
  omega

theorem nd_loop2_ge (d : ℝ) : -180 ≤ nd_loop2 d := by
  rw [nd_loop2]
  split
  · exact nd_loop2_ge (d + 360)
  · exact le_of_not_lt (by assumption)
termination_by (⌈(-180 - d) / 360⌉).toNat
decreasing_by
  have e : (-180 - (d + 360)) / 360 = (-180 - d) / 360 - 1 := by ring
  rw [e, Int.ceil_sub_one]
  have hpos : 0 < ⌈(-180 - d) / 360⌉ :=
    Int.ceil_pos.mpr (div_pos (by linarith [(by assumption : d < -180)]) (by norm_num))
  omega

theorem nd_loop2_le (d : ℝ) (hd : d ≤ 180) : nd_loop2 d ≤ 180 := by
  rw [nd_loop2]
  split
  · exact nd_loop2_le (d + 360) (by linarith [(by assumption : d < -180)])
  · exact hd
termination_by (⌈(-180 - d) / 360⌉).toNat
decreasing_by
  have e : (-180 - (d + 360)) / 360 = (-180 - d) / 360 - 1 := by ring
  rw [e, Int.ceil_sub_one]
  have hpos : 0 < ⌈(-180 - d) / 360⌉ :=
    Int.ceil_pos.mpr (div_pos (by linarith [(by assumption : d < -180)]) (by norm_num))
  omega

theorem normalize_angle_mem (a : ℝ) :
    0 ≤ normalize_angle a ∧ normalize_angle a < 360 :=
  ⟨na_loop2_nonneg _ (na_loop1_nonneg a), na_loop2_lt _⟩

theorem normalize_diff_mem (d : ℝ) :
    -180 ≤ normalize_diff d ∧ normalize_diff d ≤ 180 :=
  ⟨nd_loop2_ge _, nd_loop2_le _ (nd_loop1_le d)⟩

/-- C1: for every heading and target bearing, `decide_direction` classifies
by `d = normalize_diff(target_bearing - heading)`: FRONT exactly on
`[-15, 15]`, RIGHT exactly on `(15, 90]`, LEFT exactly on `[-90, -15)`,
and BACK exactly on the remainder (`d < -90` or `90 < d`), so the
boundary values `±15` and `±90` are classified deterministically
(FRONT at `±15`, RIGHT at `90`, LEFT at `-90`). -/
theorem C1_classify_direction (heading target_bearing : ℝ) :
    (decide_direction heading target_bearing = .FRONT ↔
      -15 ≤ normalize_diff (target_bearing - heading) ∧
        normalize_diff (target_bearing - heading) ≤ 15) ∧
    (decide_direction heading target_bearing = .RIGHT ↔
      15 < normalize_diff (target_bearing - heading) ∧
        normalize_diff (target_bearing - heading) ≤ 90) ∧
    (decide_direction heading target_bearing = .LEFT ↔
      -90 ≤ normalize_diff (target_bearing - heading) ∧
        normalize_diff (target_bearing - heading) < -15) ∧
    (decide_direction heading target_bearing = .BACK ↔
      (normalize_diff (target_bearing - heading) < -90 ∨
        90 < normalize_diff (target_bearing - heading))) := by
  set d := normalize_diff (target_bearing - heading) with hd
  have e : decide_direction heading target_bearing =
      (if |d| ≤ 15 then Direction.FRONT
       else if 15 < d ∧ d ≤ 90 then Direction.RIGHT
       else if d < -15 ∧ -90 ≤ d then Direction.LEFT
       else Direction.BACK) := rfl
  rw [e]
  split_ifs with h1 h2 h3
  · rw [abs_le] at h1
    obtain ⟨ha, hb⟩ := h1
    refine ⟨⟨fun _ => ⟨ha, hb⟩, fun _ => rfl⟩,
      ⟨fun h => by simp at h, fun h => False.elim (by obtain ⟨x, y⟩ := h; linarith)⟩,
      ⟨fun h => by simp at h, fun h => False.elim (by obtain ⟨x, y⟩ := h; linarith)⟩,
      ⟨fun h => by simp at h, fun h => False.elim (by rcases h with x | x <;> linarith)⟩⟩
  · obtain ⟨h21, h22⟩ := h2
    refine ⟨⟨fun h => by simp at h, fun h => False.elim (by obtain ⟨x, y⟩ := h; linarith)⟩,
      ⟨fun _ => ⟨h21, h22⟩, fun _ => rfl⟩,
      ⟨fun h => by simp at h, fun h => False.elim (by obtain ⟨x, y⟩ := h; linarith)⟩,
      ⟨fun h => by simp at h, fun h => False.elim (by rcases h with x | x <;> linarith)⟩⟩
  · obtain ⟨h31, h32⟩ := h3
    refine ⟨⟨fun h => by simp at h, fun h => False.elim (by obtain ⟨x, y⟩ := h; linarith)⟩,
      ⟨fun h => by simp at h, fun h => False.elim (by obtain ⟨x, y⟩ := h; linarith)⟩,
      ⟨fun _ => ⟨h32, h31⟩, fun _ => rfl⟩,
      ⟨fun h => by simp at h, fun h => False.elim (by rcases h with x | x <;> linarith)⟩⟩
  · rw [abs_le, not_and_or, not_le, not_le] at h1
    rw [not_and_or, not_lt, not_le] at h2
    rw [not_and_or, not_lt, not_le] at h3
    have hback : d < -90 ∨ 90 < d := by
      rcases h1 with h1 | h1
      · rcases h3 with h3 | h3
        · exact absurd h1 (not_lt.mpr h3)
        · exact Or.inl h3
      · rcases h2 with h2 | h2
        · exact absurd h1 (not_lt.mpr h2)
        · exact Or.inr h2
    refine ⟨⟨fun h => by simp at h,
        fun h => False.elim (by obtain ⟨x, y⟩ := h; rcases hback with hb | hb <;> linarith)⟩,
      ⟨fun h => by simp at h,
        fun h => False.elim (by obtain ⟨x, y⟩ := h; rcases hback with hb | hb <;> linarith)⟩,
      ⟨fun h => by simp at h,
        fun h => False.elim (by obtain ⟨x, y⟩ := h; rcases hback with hb | hb <;> linarith)⟩,
      ⟨fun _ => hback, fun _ => rfl⟩⟩

/-- C3 counterexample: `normalize_diff(-180)` returns `-180` itself, which
is not in the claimed half-open interval `(-180, 180]`. -/
theorem C3_counterexample : ¬ (-180 < normalize_diff (-180 : ℝ)) := by
  have h1 : nd_loop1 (-180 : ℝ) = -180 := by
    rw [nd_loop1]
    norm_num
  have h2 : nd_loop2 (-180 : ℝ) = -180 := by
    rw [nd_loop2]
    norm_num
  unfold normalize_diff
  rw [h1, h2]
  norm_num

/-- C3 (amended): for every real input, `normalize_angle` terminates with a
value in `[0, 360)` and `normalize_diff` terminates with a value in the
closed interval `[-180, 180]` (the endpoint `-180` is attainable, so the
claimed half-open interval `(-180, 180]` is widened to `[-180, 180]`). -/
theorem C3_normalization_ranges (a d : ℝ) :
    (0 ≤ normalize_angle a ∧ normalize_angle a < 360) ∧
    (-180 ≤ normalize_diff d ∧ normalize_diff d ≤ 180) :=
  ⟨normalize_angle_mem a, normalize_diff_mem d⟩

/-! ### GeoMath: haversine and bearing (server.py lines 413-431)

The trigonometric code is embedded over the real numbers.  `math.atan2`
is modelled by its standard definition in terms of `Real.arctan`. -/

/-- `math.radians(x)`: degrees to radians. -/
noncomputable def radians (x : ℝ) : ℝ := x * Real.pi / 180

/-- `math.degrees(x)`: radians to degrees. -/
noncomputable def degrees (x : ℝ) : ℝ := x * 180 / Real.pi

/-- `math.atan2(y, x)`: the angle of the point `(x, y)`, in `(-pi, pi]`,
defined case by case from `Real.arctan` as in the C/Python library. -/
noncomputable def atan2 (y x : ℝ) : ℝ :=
  if 0 < x then Real.arctan (y / x)
  else if x < 0 then
    (if 0 ≤ y then Real.arctan (y / x) + Real.pi
     else Real.arctan (y / x) - Real.pi)
  else
    (if 0 < y then Real.pi / 2
     else if y < 0 then -(Real.pi / 2)
     else 0)

/-- `haversine(lat1, lon1, lat2, lon2)` from server.py: great-circle
distance in meters with Earth radius `R = 6371000.0`. -/
noncomputable def haversine (lat1 lon1 lat2 lon2 : ℝ) : ℝ :=
  let R : ℝ := 6371000
  let dlat := radians (lat2 - lat1)
  let dlon := radians (lon2 - lon1)
  let a := Real.sin (dlat / 2) ^ 2 +
    Real.cos (radians lat1) * Real.cos (radians lat2) * Real.sin (dlon / 2) ^ 2
  2 * R * atan2 (Real.sqrt a) (Real.sqrt (1 - a))

/-- `bearing_to_target(lat1, lon1, lat2, lon2)` from server.py: initial
bearing in degrees from the current point to the target, wrapped into
`[0, 360)` by `normalize_angle`. -/
noncomputable def bearing_to_target (lat1 lon1 lat2 lon2 : ℝ) : ℝ :=
  let phi1 := radians lat1
  let phi2 := radians lat2
  let dlon := radians (lon2 - lon1)
  let y := Real.sin dlon * Real.cos phi2
  let x := Real.cos phi1 * Real.sin phi2 -
    Real.sin phi1 * Real.cos phi2 * Real.cos dlon
  normalize_angle (degrees (atan2 y x))

theorem atan2_nonneg (y x : ℝ) (hy : 0 ≤ y) (hx : 0 ≤ x) : 0 ≤ atan2 y x := by
  unfold atan2
  rcases lt_or_eq_of_le hx with hx1 | hx1
  · rw [if_pos hx1]
    calc (0:ℝ) = Real.arctan 0 := Real.arctan_zero.symm
      _ ≤ Real.arctan (y / x) :=
        Real.arctan_strictMono.monotone (div_nonneg hy (le_of_lt hx1))
  · rw [if_neg (by rw [← hx1]; exact lt_irrefl 0), if_neg (by rw [← hx1]; exact lt_irrefl 0)]
    rcases lt_or_eq_of_le hy with hy1 | hy1
    · rw [if_pos hy1]
      positivity
    · rw [if_neg (by rw [← hy1]; exact lt_irrefl 0), if_neg (by rw [← hy1]; exact lt_irrefl 0)]

theorem atan2_zero_one : atan2 0 1 = 0 := by
  unfold atan2
  rw [if_pos one_pos]
  norm_num [Real.arctan_zero]

theorem two_R_atan2_sqrt_nonneg (A : ℝ) :
    0 ≤ 2 * (6371000:ℝ) * atan2 (Real.sqrt A) (Real.sqrt (1 - A)) := by
  have h := atan2_nonneg (Real.sqrt A) (Real.sqrt (1 - A))
    (Real.sqrt_nonneg _) (Real.sqrt_nonneg _)
  linarith

theorem haversine_nonneg (lat1 lon1 lat2 lon2 : ℝ) :
    0 ≤ haversine lat1 lon1 lat2 lon2 :=
  two_R_atan2_sqrt_nonneg _

theorem haversine_self (lat lon : ℝ) : haversine lat lon lat lon = 0 := by
  show 2 * (6371000:ℝ) * atan2
      (Real.sqrt (Real.sin (radians (lat - lat) / 2) ^ 2 +
        Real.cos (radians lat) * Real.cos (radians lat) *
          Real.sin (radians (lon - lon) / 2) ^ 2))
      (Real.sqrt (1 - (Real.sin (radians (lat - lat) / 2) ^ 2 +
        Real.cos (radians lat) * Real.cos (radians lat) *
          Real.sin (radians (lon - lon) / 2) ^ 2))) = 0
  have h0 : radians 0 = 0 := by unfold radians; ring
  rw [sub_self lat, sub_self lon, h0, zero_div, Real.sin_zero]
  norm_num [Real.sqrt_zero, Real.sqrt_one, atan2_zero_one]

theorem sin_radians_neg_half_sq (u : ℝ) :
    Real.sin (radians (-u) / 2) ^ 2 = Real.sin (radians u / 2) ^ 2 := by
  have h : radians (-u) = -(radians u) := by unfold radians; ring
  rw [h, neg_div, Real.sin_neg]
  ring

theorem haversine_symm (lat1 lon1 lat2 lon2 : ℝ) :
    haversine lat1 lon1 lat2 lon2 = haversine lat2 lon2 lat1 lon1 := by
  show 2 * (6371000:ℝ) * atan2
      (Real.sqrt (Real.sin (radians (lat2 - lat1) / 2) ^ 2 +
        Real.cos (radians lat1) * Real.cos (radians lat2) *
          Real.sin (radians (lon2 - lon1) / 2) ^ 2))
      (Real.sqrt (1 - (Real.sin (radians (lat2 - lat1) / 2) ^ 2 +
        Real.cos (radians lat1) * Real.cos (radians lat2) *
          Real.sin (radians (lon2 - lon1) / 2) ^ 2))) =
    2 * (6371000:ℝ) * atan2
      (Real.sqrt (Real.sin (radians (lat1 - lat2) / 2) ^ 2 +
        Real.cos (radians lat2) * Real.cos (radians lat1) *
          Real.sin (radians (lon1 - lon2) / 2) ^ 2))
      (Real.sqrt (1 - (Real.sin (radians (lat1 - lat2) / 2) ^ 2 +
        Real.cos (radians lat2) * Real.cos (radians lat1) *
          Real.sin (radians (lon1 - lon2) / 2) ^ 2)))
  have key : Real.sin (radians (lat1 - lat2) / 2) ^ 2 +
      Real.cos (radians lat2) * Real.cos (radians lat1) *
        Real.sin (radians (lon1 - lon2) / 2) ^ 2 =
      Real.sin (radians (lat2 - lat1) / 2) ^ 2 +
      Real.cos (radians lat1) * Real.cos (radians lat2) *
        Real.sin (radians (lon2 - lon1) / 2) ^ 2 := by
    rw [show lat1 - lat2 = -(lat2 - lat1) from (neg_sub _ _).symm,
      show lon1 - lon2 = -(lon2 - lon1) from (neg_sub _ _).symm,
      sin_radians_neg_half_sq (lat2 - lat1), sin_radians_neg_half_sq (lon2 - lon1)]
    ring
  rw [key]

/-- C6: the haversine distance (Earth radius 6,371,000 m) vanishes on
identical points, is symmetric in its two point arguments, and is
non-negative for all inputs. -/
theorem C6_haversine_metric :
    (∀ lat lon : ℝ, haversine lat lon lat lon = 0) ∧
    (∀ lat1 lon1 lat2 lon2 : ℝ,
      haversine lat1 lon1 lat2 lon2 = haversine lat2 lon2 lat1 lon1) ∧
    (∀ lat1 lon1 lat2 lon2 : ℝ, 0 ≤ haversine lat1 lon1 lat2 lon2) :=
  ⟨haversine_self, haversine_symm, haversine_nonneg⟩

/-! ### SignalConverter (server.py lines 111-128)

These functions only add, multiply, divide by constants, compare and
truncate, so they are embedded over the rationals and evaluate.
Python `int(x)` truncates toward zero. -/

/-- Python `int(x)` on a number: truncation toward zero, which on the
rational `num/den` (the denominator is positive) is the T-division of the
numerator by the denominator. -/
def py_int (q : ℚ) : ℤ :=
  Int.tdiv q.num (q.den : ℤ)

/-- `rssi_to_percent(rssi)` from server.py, on the integer dBm values the
server stores: clamp at the floor `-90` and ceiling `-40`, otherwise
`int((rssi - RSSI_MIN) * 100 / (RSSI_MAX - RSSI_MIN))`; the argument of
`int()` is the exact fraction `(rssi - (-90)) * 100 / 50` and truncation
toward zero is T-division by the positive denominator. -/
def rssi_to_percent (rssi : ℤ) : ℤ :=
  if rssi ≤ -90 then 0
  else if -40 ≤ rssi then 100
  else Int.tdiv ((rssi - (-90)) * 100) ((-40) - (-90))

/-- `percent_to_rssi(percent)` from server.py, on the integer percentages
the server feeds it: clamp at `0` and `100`, otherwise
`int(RSSI_MIN + percent * (RSSI_MAX - RSSI_MIN) / 100)`; the argument of
`int()` is the exact fraction `(-90 * 100 + percent * 50) / 100` and
truncation toward zero is T-division by the positive denominator. -/
def percent_to_rssi (percent : ℤ) : ℤ :=
  if percent ≤ 0 then -90
  else if 100 ≤ percent then -40
  else Int.tdiv (-90 * 100 + percent * ((-40) - (-90))) 100

/-- C5: for every integer percentage `p` in `[0, 100]`, converting to dBm
with `percent_to_rssi` and back with `rssi_to_percent` yields a value
within 1 of `p` (the round trip is lossy, not exact). -/
theorem C5_signal_round_trip (p : ℤ) (h0 : 0 ≤ p) (h1 : p ≤ 100) :
    |rssi_to_percent (percent_to_rssi p) - p| ≤ 1 := by
  interval_cases p <;> decide

/-- Witness for C5 at `p = 57`. -/
theorem C5_signal_round_trip_witness :
    ((0:ℤ) ≤ 57 ∧ (57:ℤ) ≤ 100) ∧
      |rssi_to_percent (percent_to_rssi 57) - 57| ≤ 1 :=
  ⟨⟨by decide, by decide⟩, C5_signal_round_trip 57 (by decide) (by decide)⟩

/-! ### NavigationResolver: `calculate_direction` (server.py lines 445-523)

The handler reads the global `current_waypoint` and the rows of
`coordinates_log.csv`.  It is embedded as a pure function of that state:
the waypoint record (whose fields are `None` until first set) and the
list of position rows in append order.  A missing log file and an empty
log coincide (no rows).  Numeric row fields are given as parsed values
and the optional `azimuth` column as an `Option`; `round(x, 2)` at the
presentation boundary is modelled by `pyround2` (round half to even on
hundredths, as Python rounds). -/

/-- A parsed row of `coordinates_log.csv` as `calculate_direction` uses it:
position plus the optional compass heading (`azimuth`). -/
structure PositionRow where
  latitude : ℝ
  longitude : ℝ
  azimuth : Option ℝ

/-- The global `current_waypoint` of server.py: all fields start as `None`. -/
structure CurrentWaypoint where
  latitude : Option ℝ
  longitude : Option ℝ

/-- The three distinct precondition failures of `calculate_direction`:
no waypoint set (400 "No waypoint set"), no GPS rows (400 "No GPS data
available"), no azimuth in the latest row (400 "No azimuth available"). -/
inductive NavFailure : Type
  | NoWaypoint
  | NoPosition
  | NoHeading
deriving DecidableEq, Repr

/-- The successful payload of `calculate_direction`. -/
structure NavResponse where
  direction : Direction
  current_latitude : ℝ
  current_longitude : ℝ
  heading : ℝ
  waypoint_latitude : ℝ
  waypoint_longitude : ℝ
  bearing : ℝ
  distance : ℝ
  heading_diff : ℝ

/-- Python `round(y)`: round half to even. -/
noncomputable def round_half_even (y : ℝ) : ℤ :=
  if y - ⌊y⌋ < 1/2 then ⌊y⌋
  else if 1/2 < y - ⌊y⌋ then ⌊y⌋ + 1
  else if Even ⌊y⌋ then ⌊y⌋ else ⌊y⌋ + 1

/-- Python `round(x, 2)`: round half to even at two decimal places. -/
noncomputable def pyround2 (x : ℝ) : ℝ :=
  (round_half_even (x * 100) : ℝ) / 100

/-- `calculate_direction` from server.py: check the waypoint, take the
latest GPS row, require its heading, then combine `bearing_to_target`,
`haversine`, `decide_direction` and `normalize_diff`, rounding the three
navigation numbers to two decimals in the response. -/
noncomputable def calculate_direction (wp : CurrentWaypoint)
    (rows : List PositionRow) : Except NavFailure NavResponse :=
  match wp.latitude, wp.longitude with
  | some target_lat, some target_lon =>
    match rows.getLast? with
    | none => .error .NoPosition
    | some latest =>
      match latest.azimuth with
      | none => .error .NoHeading
      | some heading =>
        let bearing := bearing_to_target latest.latitude latest.longitude
          target_lat target_lon
        let distance := haversine latest.latitude latest.longitude
          target_lat target_lon
        let direction := decide_direction heading bearing
        .ok ⟨direction, latest.latitude, latest.longitude, heading,
          target_lat, target_lon, pyround2 bearing, pyround2 distance,
          pyround2 (normalize_diff (bearing - heading))⟩
  | _, _ => .error .NoWaypoint

theorem round_half_even_nonneg (y : ℝ) (hy : 0 ≤ y) : 0 ≤ round_half_even y := by
  unfold round_half_even
  have hfl : 0 ≤ ⌊y⌋ := Int.floor_nonneg.mpr hy
  split_ifs <;> omega

theorem pyround2_nonneg (x : ℝ) (hx : 0 ≤ x) : 0 ≤ pyround2 x := by
  unfold pyround2
  have h := round_half_even_nonneg (x * 100) (by linarith)
  positivity

/-- C2: `calculate_direction` fails with the distinct failure `NoWaypoint`
whenever the waypoint is unset (a latitude or longitude still `None`),
with `NoPosition` when a waypoint is set but no position rows exist, and
with `NoHeading` when the latest row lacks an azimuth; when waypoint,
latest position and heading are all present it returns a direction (one
of FRONT, RIGHT, LEFT, BACK), the bearing from the latest position to
the waypoint, a non-negative distance, and the heading difference
`normalize_diff(bearing - heading)` (the three numbers rounded to two
decimals at the presentation boundary). -/
theorem C2_resolve_navigation :
    (∀ (wp : CurrentWaypoint) (rows : List PositionRow),
      wp.latitude = none ∨ wp.longitude = none →
        calculate_direction wp rows = .error .NoWaypoint) ∧
    (∀ target_lat target_lon : ℝ,
      calculate_direction ⟨some target_lat, some target_lon⟩ [] =
        .error .NoPosition) ∧
    (∀ (target_lat target_lon : ℝ) (rows : List PositionRow)
      (latest : PositionRow), rows.getLast? = some latest →
      latest.azimuth = none →
        calculate_direction ⟨some target_lat, some target_lon⟩ rows =
          .error .NoHeading) ∧
    (∀ (target_lat target_lon : ℝ) (rows : List PositionRow)
      (latest : PositionRow) (heading : ℝ), rows.getLast? = some latest →
      latest.azimuth = some heading →
      ∃ resp : NavResponse,
        calculate_direction ⟨some target_lat, some target_lon⟩ rows =
          .ok resp ∧
        (resp.direction = .FRONT ∨ resp.direction = .RIGHT ∨
          resp.direction = .LEFT ∨ resp.direction = .BACK) ∧
        resp.bearing = pyround2 (bearing_to_target latest.latitude
          latest.longitude target_lat target_lon) ∧
        0 ≤ resp.distance ∧
        resp.heading_diff = pyround2 (normalize_diff (bearing_to_target
          latest.latitude latest.longitude target_lat target_lon - heading))) := by
  refine ⟨?_, ?_, ?_, ?_⟩
  · intro wp rows h
    rcases wp with ⟨wlat, wlon⟩
    rcases h with h | h
    · subst h
      rfl
    · subst h
      cases wlat <;> rfl
  · intro target_lat target_lon
    rfl
  · intro target_lat target_lon rows latest hlast haz
    unfold calculate_direction
    rw [hlast]
    dsimp only
    rw [haz]
  · intro target_lat target_lon rows latest heading hlast haz
    have heq : calculate_direction ⟨some target_lat, some target_lon⟩ rows =
        .ok ⟨decide_direction heading (bearing_to_target latest.latitude
            latest.longitude target_lat target_lon),
          latest.latitude, latest.longitude, heading, target_lat, target_lon,
          pyround2 (bearing_to_target latest.latitude latest.longitude
            target_lat target_lon),
          pyround2 (haversine latest.latitude latest.longitude
            target_lat target_lon),
          pyround2 (normalize_diff (bearing_to_target latest.latitude
            latest.longitude target_lat target_lon - heading))⟩ := by
      unfold calculate_direction
      rw [hlast]
      dsimp only
      rw [haz]
    refine ⟨_, heq, ?_, rfl,
      pyround2_nonneg _ (haversine_nonneg _ _ _ _), rfl⟩
    cases decide_direction heading (bearing_to_target latest.latitude
      latest.longitude target_lat target_lon) <;> simp

/-- Witness for C2: each failure mode and the success mode at a concrete
state. -/
theorem C2_resolve_navigation_witness :
    calculate_direction ⟨none, none⟩ [] = .error .NoWaypoint ∧
    calculate_direction ⟨some 10, some 20⟩ [] = .error .NoPosition ∧
    calculate_direction ⟨some 10, some 20⟩ [⟨1, 2, none⟩] =
      .error .NoHeading ∧
    ∃ resp : NavResponse,
      calculate_direction ⟨some 10, some 20⟩ [⟨1, 2, some 90⟩] = .ok resp ∧
      (resp.direction = .FRONT ∨ resp.direction = .RIGHT ∨
        resp.direction = .LEFT ∨ resp.direction = .BACK) ∧
      resp.bearing = pyround2 (bearing_to_target 1 2 10 20) ∧
      0 ≤ resp.distance ∧
      resp.heading_diff = pyround2 (normalize_diff (bearing_to_target 1 2 10 20 - 90)) :=
  ⟨C2_resolve_navigation.1 ⟨none, none⟩ [] (Or.inl rfl),
   C2_resolve_navigation.2.1 10 20,
   C2_resolve_navigation.2.2.1 10 20 [⟨1, 2, none⟩] ⟨1, 2, none⟩ rfl rfl,
   C2_resolve_navigation.2.2.2 10 20 [⟨1, 2, some 90⟩] ⟨1, 2, some 90⟩ 90 rfl rfl⟩

/-! ### AppendLog read side: `get_history` (server.py lines 217-276) and
`get_signal` (server.py lines 681-765)

A CSV cell is abstracted to the three cases that matter to `float()` /
`int()`: empty (or absent column), numeric text, or malformed text that
raises.  `get_history` parses the last 10 rows inside one try/except, so
one raising cell aborts the whole read into the error result (500 with
`count 0, data []`).  `get_signal` works on split lines (lists of string
fields) and uses `int()`, modelled by `String.toInt?`. -/

/-- A CSV cell as the readers see it. -/
inductive Cell : Type
  | empty
  | num (q : ℚ)
  | corrupt
deriving DecidableEq, Repr

/-- `float(row[k]) if row[k] (and nonempty) else None`: an empty or absent
cell yields `None`, numeric text parses, malformed text raises. -/
def py_float_opt : Cell → Except Unit (Option ℚ)
  | .empty => .ok none
  | .num q => .ok (some q)
  | .corrupt => .error ()

/-- `int(row[k]) if row[k] else None`: like `py_float_opt`, but `int()`
also raises on numeric text that is not an integer numeral. -/
def py_int_opt : Cell → Except Unit (Option ℤ)
  | .empty => .ok none
  | .num q => if q.den = 1 then .ok (some q.num) else .error ()
  | .corrupt => .error ()

/-- A row of `coordinates_log.csv` with the cells `get_history` reads. -/
structure CoordRow where
  latitude : Cell
  longitude : Cell
  timestamp_ms : Cell
  accuracy : Cell
  altitude : Cell
  speed : Cell
  azimuth : Cell
  pitch : Cell
  roll : Cell
deriving DecidableEq, Repr

/-- One parsed entry of the `/history` response. -/
structure HistoryEntry where
  latitude : Option ℚ
  longitude : Option ℚ
  timestamp : Option ℤ
  accuracy : Option ℚ
  altitude : Option ℚ
  speed : Option ℚ
  azimuth : Option ℚ
  pitch : Option ℚ
  roll : Option ℚ
deriving DecidableEq, Repr

/-- The entry-building block of `get_history`: each field conversion can
raise, and the exception propagates to the surrounding try/except. -/
def parse_history_row (r : CoordRow) : Except Unit HistoryEntry := do
  let latitude ← py_float_opt r.latitude
  let longitude ← py_float_opt r.longitude
  let timestamp ← py_int_opt r.timestamp_ms
  let accuracy ← py_float_opt r.accuracy
  let altitude ← py_float_opt r.altitude
  let speed ← py_float_opt r.speed
  let azimuth ← py_float_opt r.azimuth
  let pitch ← py_float_opt r.pitch
  let roll ← py_float_opt r.roll
  return ⟨latitude, longitude, timestamp, accuracy, altitude, speed,
    azimuth, pitch, roll⟩

/-- `rows[-10:] if len(rows) > 10 else rows` from `get_history`. -/
def history_window (rows : List CoordRow) : List CoordRow :=
  if rows.length > 10 then rows.drop (rows.length - 10) else rows

/-- The `/history` result: 200 with the parsed entries (`count` is their
number), or the catch-all error result (500 with `count 0, data []`). -/
inductive HistoryResult : Type
  | ok (data : List HistoryEntry)
  | error
deriving DecidableEq, Repr

/-- `get_history` from server.py: parse the last 10 rows in one loop
guarded by a single try/except; a missing log file and an empty log both
yield `ok []`. -/
def get_history (rows : List CoordRow) : HistoryResult :=
  match (history_window rows).mapM parse_history_row with
  | .ok entries => .ok entries
  | .error _ => .error

/-- Python truthiness of an optional string: `None` and `""` are falsy. -/
def py_truthy (o : Option String) : Option String :=
  match o with
  | some s => if s = "" then none else some s
  | none => none

/-- The `/get-signal` result: 404 without data, 404 for an unknown helmet,
500 for a last line with fewer than 5 fields, 500 from the try/except
when `int()` raises, or the 200 payload. -/
inductive SignalResult : Type
  | no_data
  | not_found
  | invalid_format
  | server_error
  | ok (timestamp : String) (helmet_id rssi signal : ℤ) (client_ip : String)
deriving DecidableEq, Repr

/-- `len(parts) >= 5 and parts[1] == helmet_id_filter` from `get_signal`. -/
def signal_line_matches (f : String) (parts : List String) : Bool :=
  decide (5 ≤ parts.length) && (parts.getD 1 "" == f)

/-- The shared tail of `get_signal`: check the field count of the selected
line, then build the payload with `int(parts[1])`, `int(parts[2])`,
`int(parts[3])`; a parse failure raises into the surrounding try/except. -/
def parse_signal_line (parts : List String) : SignalResult :=
  if 5 ≤ parts.length then
    match (parts.getD 1 "").toInt?, (parts.getD 2 "").toInt?,
        (parts.getD 3 "").toInt? with
    | some helmet_id, some rssi, some signal =>
      .ok (parts.getD 0 "") helmet_id rssi signal (parts.getD 4 "")
    | _, _, _ => .server_error
  else .invalid_format

/-- `get_signal` from server.py on the split lines of `rssi_log.csv`
(header first): fewer than two lines is no data; with a (truthy) helmet
filter, scan the data lines for those with at least 5 fields and a
matching second field and take the last; otherwise take the last line of
the file; then parse the selected line. -/
def get_signal (helmet_id_filter : Option String)
    (lines : List (List String)) : SignalResult :=
  if lines.length < 2 then .no_data
  else
    match py_truthy helmet_id_filter with
    | some f =>
      match (List.filter (signal_line_matches f) (lines.drop 1)).getLast? with
      | none => .not_found
      | some last_line => parse_signal_line last_line
    | none =>
      match lines.getLast? with
      | none => .no_data
      | some last_line => parse_signal_line last_line

theorem history_mapM_error {rows : List CoordRow} {r : CoordRow}
    (hmem : r ∈ rows) (herr : parse_history_row r = .error ()) :
    rows.mapM parse_history_row = .error () := by
  induction rows with
  | nil => cases hmem
  | cons head tail ih =>
    rw [List.mapM_cons]
    rcases List.mem_cons.mp hmem with h | h
    · subst h
      rw [herr]
      rfl
    · cases hp : parse_history_row head with
      | error e => rfl
      | ok v =>
        rw [ih h]
        rfl

theorem history_mapM_ok {rows : List CoordRow}
    (h : ∀ r ∈ rows, ∃ e, parse_history_row r = .ok e) :
    ∃ es, rows.mapM parse_history_row = .ok es ∧ es.length = rows.length := by
  induction rows with
  | nil => exact ⟨[], rfl, rfl⟩
  | cons head tail ih =>
    obtain ⟨e, he⟩ := h head (List.mem_cons_self _ _)
    obtain ⟨es, hes, hlen⟩ := ih (fun r hr => h r (List.mem_cons_of_mem _ hr))
    refine ⟨e :: es, ?_, by simp [hlen]⟩
    rw [List.mapM_cons, he, hes]
    rfl

/-- A well-formed coordinates row: every cell parses. -/
def row_good : CoordRow :=
  ⟨.num 1, .num 2, .num 3, .empty, .empty, .empty, .empty, .empty, .empty⟩

/-- A corrupt coordinates row: its latitude cell raises in `float()`. -/
def row_bad : CoordRow :=
  ⟨.corrupt, .num 2, .num 3, .empty, .empty, .empty, .empty, .empty, .empty⟩

/-- What `row_good` parses to. -/
def entry_good : HistoryEntry :=
  ⟨some 1, some 2, some 3, none, none, none, none, none, none⟩

/-- C4 counterexample: a log holding one readable row and one corrupt row.
Read alone, the readable row is returned; with the corrupt row present,
`get_history` returns the error result with no data at all instead of
skipping the corrupt record and returning the readable one. -/
theorem C4_counterexample :
    get_history [row_good] = .ok [entry_good] ∧
    get_history [row_good, row_bad] = .error := by
  constructor <;> decide

/-- C4 (amended): the read-side queries do not skip a malformed record
uniformly.  `get_history` fails the whole read (the error result, with
count 0 and no data) as soon as any of the last 10 records is malformed,
and returns the parsed records only when all of them parse; `get_signal`
under a helmet filter does skip records with fewer than 5 fields (they
never affect which record is selected), though a selected record whose
numeric fields fail `int()` still fails that read. -/
theorem C4_corrupt_record_reads :
    (∀ rows : List CoordRow,
      (∃ r ∈ history_window rows, parse_history_row r = .error ()) →
        get_history rows = .error) ∧
    (∀ rows : List CoordRow,
      (∀ r ∈ history_window rows, ∃ e, parse_history_row r = .ok e) →
        ∃ es, get_history rows = .ok es ∧
          es.length = (history_window rows).length) ∧
    (∀ (f : String) (header c : List String) (l1 l2 : List (List String)),
      f ≠ "" → c.length < 5 → l1 ++ l2 ≠ [] →
        get_signal (some f) (header :: (l1 ++ c :: l2)) =
          get_signal (some f) (header :: (l1 ++ l2))) := by
  refine ⟨?_, ?_, ?_⟩
  · intro rows ⟨r, hmem, herr⟩
    unfold get_history
    rw [history_mapM_error hmem herr]
  · intro rows h
    obtain ⟨es, hes, hlen⟩ := history_mapM_ok h
    refine ⟨es, ?_, hlen⟩
    unfold get_history
    rw [hes]
  · intro f header c l1 l2 hf hc hne
    have hlen2 : 0 < l1.length + l2.length := by
      have h := List.length_pos.mpr hne
      simpa using h
    unfold get_signal
    rw [if_neg (by simp; omega), if_neg (by simp; omega)]
    have hpt : py_truthy (some f) = some f := by simp [py_truthy, hf]
    rw [hpt]
    have hfilter :
        List.filter (signal_line_matches f) ((header :: (l1 ++ c :: l2)).drop 1) =
        List.filter (signal_line_matches f) ((header :: (l1 ++ l2)).drop 1) := by
      have hcfalse : ¬ signal_line_matches f c = true := by
        intro hx
        simp [signal_line_matches] at hx
        omega
      simp only [List.drop_succ_cons, List.drop_zero]
      rw [List.filter_append, List.filter_append, List.filter_cons_of_neg hcfalse]
    dsimp only
    rw [hfilter]

/-- Witness for C4 (amended): a corrupt row fails the whole history read, a
readable log is returned in full, and a short line does not change the
filtered signal read. -/
theorem C4_corrupt_record_reads_witness :
    get_history [row_bad] = .error ∧
    (∃ es, get_history [row_good] = .ok es ∧
      es.length = (history_window [row_good]).length) ∧
    get_signal (some "7") [["hdr"], ["bad"], ["t", "7", "-60", "80", "ip"]] =
      get_signal (some "7") [["hdr"], ["t", "7", "-60", "80", "ip"]] := by
  refine ⟨?_, ?_, ?_⟩
  · exact C4_corrupt_record_reads.1 [row_bad] ⟨row_bad, by decide, rfl⟩
  · refine C4_corrupt_record_reads.2.1 [row_good] ?_
    intro r hr
    rw [show history_window [row_good] = [row_good] from by decide] at hr
    rw [List.mem_singleton] at hr
    subst hr
    exact ⟨entry_good, rfl⟩
  · exact C4_corrupt_record_reads.2.2 "7" ["hdr"] ["bad"] []
      [["t", "7", "-60", "80", "ip"]] (by decide) (by decide) (by decide)

/-! ### KeyedState: the IoT controller (iot_controller.py)

The in-memory maps are embedded as association lists in insertion order
(Python dict semantics: assignment replaces in place or appends).  The
durable side effects of a handler are part of its result: the JSON
snapshot written by `save_state` and the CSV audit rows.  Timestamps and
client addresses are parameters. -/

/-- One value of `iot_state["variables"]`. -/
structure TriggerData where
  triggered : Bool
  timestamp : String
  triggered_by : String
deriving DecidableEq, Repr

/-- One value of `iot_state["button_counts"]`. -/
structure ButtonData where
  button_1 : ℤ
  button_2 : ℤ
  button_3 : ℤ
  last_update : String
deriving DecidableEq, Repr

/-- Python dict assignment `d[k] = v` on an association list: overwrite in
place if the key exists, else append. -/
def upsert {α : Type} (k : String) (v : α) :
    List (String × α) → List (String × α)
  | [] => [(k, v)]
  | (k2, v2) :: rest =>
    if k2 = k then (k, v) :: rest else (k2, v2) :: upsert k v rest

/-- The in-memory `iot_state` of iot_controller.py (`vars` stands for its
"variables" map, whose Python name is a Lean keyword). -/
structure IotState where
  vars : List (String × TriggerData)
  button_counts : List (String × ButtonData)
deriving DecidableEq, Repr

/-- One row of `iot_triggers.csv`. -/
structure TriggerAuditRow where
  timestamp : String
  variable_name : String
  action : String
  triggered_by : String
  client_ip : String
deriving DecidableEq, Repr

/-- The IoT controller's world: in-memory state, the `iot_state.json`
snapshot (`none` until first written), and the trigger audit log. -/
structure IotEnv where
  state : IotState
  snapshot : Option IotState
  triggers_log : List TriggerAuditRow
deriving DecidableEq, Repr

/-- Result of the POST branch of `/iot/trigger`. -/
inductive TriggerPostResult : Type
  | validation_error
  | ok (variable_name : String) (triggered : Bool) (timestamp : String)
deriving DecidableEq, Repr

/-- The POST branch of `trigger_variable` (iot_controller.py lines
125-164): reject a missing or empty `variable_name` before touching any
state; otherwise, inside the lock, overwrite the key, snapshot the whole
state (`save_state`) and append one audit row. -/
def trigger_variable_post (variable_name : Option String) (triggered : Bool)
    (triggered_by : String) (ts client_ip : String) (env : IotEnv) :
    TriggerPostResult × IotEnv :=
  match py_truthy variable_name with
  | none => (.validation_error, env)
  | some name =>
    let st := { env.state with
      vars := upsert name ⟨triggered, ts, triggered_by⟩ env.state.vars }
    let action := if triggered then "trigger" else "reset"
    (.ok name triggered ts,
     { state := st, snapshot := some st,
       triggers_log := env.triggers_log ++
         [⟨ts, name, action, triggered_by, client_ip⟩] })

/-- Response of the GET branch of `/iot/trigger` and of the
variable branch of `/iot/status`. -/
structure TriggerStatusResponse where
  variable_name : String
  triggered : Bool
  timestamp : Option String
  triggered_by : Option String
deriving DecidableEq, Repr

/-- Result of the GET branch of `/iot/trigger`. -/
inductive TriggerGetResult : Type
  | validation_error
  | ok (r : TriggerStatusResponse)
deriving DecidableEq, Repr

/-- The GET branch of `trigger_variable` (iot_controller.py lines
100-123): require a (truthy) `variable_name`; a known key answers with
its stored data, an unknown key with the default
`triggered false, timestamp None, triggered_by None`, both as status ok;
the state is only read. -/
def trigger_variable_get (variable_name : Option String) (st : IotState) :
    TriggerGetResult × IotState :=
  match py_truthy variable_name with
  | none => (.validation_error, st)
  | some name =>
    match st.vars.lookup name with
    | some d => (.ok ⟨name, d.triggered, some d.timestamp, some d.triggered_by⟩, st)
    | none => (.ok ⟨name, false, none, none⟩, st)

/-- Result of `/iot/status`. -/
inductive StatusResult : Type
  | var_result (r : TriggerStatusResponse)
  | device_result (device_id : String) (b1 b2 b3 : ℤ) (last_update : Option String)
  | all_result (vars : List (String × TriggerData))
      (button_counts : List (String × ButtonData))
deriving DecidableEq, Repr

/-- `get_trigger_status` (iot_controller.py lines 238-331): a (truthy)
`variable_name` answers like the GET trigger branch, else a (truthy)
`device_id` answers with the stored or zeroed button counts, else the
whole state is returned; the state is only read. -/
def get_trigger_status (variable_name device_id : Option String)
    (st : IotState) : StatusResult × IotState :=
  match py_truthy variable_name with
  | some name =>
    (match st.vars.lookup name with
     | some d => (.var_result ⟨name, d.triggered, some d.timestamp, some d.triggered_by⟩, st)
     | none => (.var_result ⟨name, false, none, none⟩, st))
  | none =>
    match py_truthy device_id with
    | some dev =>
      (match st.button_counts.lookup dev with
       | some d => (.device_result dev d.button_1 d.button_2 d.button_3
           (some d.last_update), st)
       | none => (.device_result dev 0 0 0 none, st))
    | none => (.all_result st.vars st.button_counts, st)

/-- Result of `/iot/reset`. -/
inductive ResetResult : Type
  | confirm_error
  | ok (reset_variables reset_button_counts : Bool)
deriving DecidableEq, Repr

/-- `reset_iot_data` (iot_controller.py lines 334-382): without
`confirm=yes` reject and touch nothing; otherwise clear the maps whose
scope matches `type in ['variables', 'all']` / `type in ['buttons',
'all']`, report which were cleared, and `save_state` unconditionally. -/
def reset_iot_data (confirm reset_type : String) (env : IotEnv) :
    ResetResult × IotEnv :=
  if confirm ≠ "yes" then (.confirm_error, env)
  else
    let st1 := if reset_type = "variables" ∨ reset_type = "all" then
      { env.state with vars := [] } else env.state
    let st2 := if reset_type = "buttons" ∨ reset_type = "all" then
      { st1 with button_counts := [] } else st1
    (.ok (decide (reset_type = "variables" ∨ reset_type = "all"))
      (decide (reset_type = "buttons" ∨ reset_type = "all")),
     { env with state := st2, snapshot := some st2 })

/-! ### Ingestion: `receive_rssi` (server.py lines 35-108) and
`receive_safe_coordinates` (server.py lines 286-361)

`receive_rssi` validates latitude/longitude and the signals mapping
before any write, but converts each signal with `int(signal)` inside its
per-helmet loop, after earlier helmets' rows were already appended: a
non-numeric value there raises out of the handler mid-loop. -/

/-- A JSON signal value under `int(signal)`: numbers truncate toward
zero, anything else raises. -/
def py_int_cell : Cell → Except Unit ℤ
  | .num q => .ok (py_int q)
  | _ => .error ()

/-- One row of `rssi_log.csv`. -/
structure RssiRecord where
  timestamp : String
  helmet_id : String
  rssi : ℤ
  signal : ℤ
  latitude : ℚ
  longitude : ℚ
  client_ip : String
deriving DecidableEq, Repr

/-- The coordinates row `receive_rssi` appends (accuracy, altitude and
speed are written as None). -/
structure CoordLogRow where
  timestamp : String
  latitude : ℚ
  longitude : ℚ
  client_ip : String
deriving DecidableEq, Repr

/-- The two CSV logs `receive_rssi` writes. -/
structure ServerLogs where
  rssi_log : List RssiRecord
  coords_log : List CoordLogRow
deriving DecidableEq, Repr

/-- The request body of POST `/rssi`. -/
structure RssiRequest where
  latitude : Option ℚ
  longitude : Option ℚ
  signals : Option (List (String × Cell))
deriving DecidableEq, Repr

/-- Outcome of `receive_rssi`: the 400 validation rejection, an unhandled
`ValueError` escaping the handler (HTTP 500), or the 200 response. -/
inductive RssiOutcome : Type
  | validation_error
  | crash
  | ok
deriving DecidableEq, Repr

/-- The `for helmet_id, signal in signals.items()` loop of `receive_rssi`:
one log row per helmet, `int(signal)` first; a raise aborts the loop with
the rows appended so far kept in the log. -/
def rssi_loop (ts : String) (latitude longitude : ℚ) (client_ip : String) :
    List (String × Cell) → List RssiRecord →
    Except (List RssiRecord) (List RssiRecord)
  | [], log => .ok log
  | (helmet_id, c) :: rest, log =>
    match py_int_cell c with
    | .error _ => .error log
    | .ok signal =>
      rssi_loop ts latitude longitude client_ip rest
        (log ++ [⟨ts, helmet_id, percent_to_rssi signal, signal,
          latitude, longitude, client_ip⟩])

/-- `receive_rssi` from server.py: validate latitude/longitude and the
signals mapping (missing, non-dict or empty is a 400), then run the
per-helmet loop, then append one coordinates row. -/
def receive_rssi (req : RssiRequest) (ts client_ip : String)
    (logs : ServerLogs) : RssiOutcome × ServerLogs :=
  match req.latitude, req.longitude with
  | some latitude, some longitude =>
    match req.signals with
    | none => (.validation_error, logs)
    | some sigs =>
      if sigs.isEmpty then (.validation_error, logs)
      else
        match rssi_loop ts latitude longitude client_ip sigs logs.rssi_log with
        | .error log1 => (.crash, { logs with rssi_log := log1 })
        | .ok log1 =>
          (.ok, { rssi_log := log1,
                  coords_log := logs.coords_log ++
                    [⟨ts, latitude, longitude, client_ip⟩] })
  | _, _ => (.validation_error, logs)

/-- The request body of POST `/safe-coordinates`. -/
structure SafeCoordRequest where
  latitude : Option ℚ
  longitude : Option ℚ
  timestamp : Option ℤ
  set_by : Option String
deriving DecidableEq, Repr

/-- The global `current_waypoint` of server.py with its metadata. -/
structure WaypointState where
  latitude : Option ℚ
  longitude : Option ℚ
  timestamp : Option ℤ
  set_by : Option String
deriving DecidableEq, Repr

/-- One row of `safe_waypoints_log.csv`. -/
structure WaypointLogRow where
  timestamp_ms : ℤ
  latitude : ℚ
  longitude : ℚ
  set_by : String
  client_ip : String
deriving DecidableEq, Repr

/-- Outcome of `receive_safe_coordinates`. -/
inductive SafeCoordOutcome : Type
  | validation_error
  | ok
deriving DecidableEq, Repr

/-- `receive_safe_coordinates` from server.py: validate latitude and
longitude before touching the waypoint; on success overwrite the global
waypoint wholesale (a missing timestamp becomes the current time in
milliseconds, a missing `set_by` becomes "mobile_app") and append one
waypoint audit row. -/
def receive_safe_coordinates (req : SafeCoordRequest) (now_ms : ℤ)
    (client_ip : String) (wp : WaypointState) (log : List WaypointLogRow) :
    SafeCoordOutcome × WaypointState × List WaypointLogRow :=
  match req.latitude, req.longitude with
  | some latitude, some longitude =>
    let set_by := req.set_by.getD "mobile_app"
    let ts := match req.timestamp with
      | some t => t
      | none => now_ms
    (.ok,
     { latitude := some latitude, longitude := some longitude,
       timestamp := some ts, set_by := some set_by },
     log ++ [⟨ts, latitude, longitude, set_by, client_ip⟩])
  | _, _ => (.validation_error, wp, log)

theorem rssi_loop_crash (ts : String) (la lo : ℚ) (ip : String)
    (pre : List (String × Cell)) (helmet : String) (c : Cell)
    (rest : List (String × Cell)) (log : List RssiRecord)
    (hpre : ∀ p ∈ pre, ∃ q, p.2 = Cell.num q) (hc : ∀ q, c ≠ Cell.num q) :
    ∃ recs, recs.length = pre.length ∧
      rssi_loop ts la lo ip (pre ++ (helmet, c) :: rest) log =
        .error (log ++ recs) := by
  induction pre generalizing log with
  | nil =>
    refine ⟨[], rfl, ?_⟩
    rw [List.append_nil, List.nil_append]
    cases c with
    | num q => exact absurd rfl (hc q)
    | empty => rfl
    | corrupt => rfl
  | cons head tail ih =>
    obtain ⟨q, hq⟩ := hpre head (List.mem_cons_self _ _)
    obtain ⟨hid, hcell⟩ := head
    dsimp only at hq
    subst hq
    obtain ⟨recs, hlen, hrec⟩ :=
      ih (log ++ [⟨ts, hid, percent_to_rssi (py_int q), py_int q, la, lo, ip⟩])
        (fun p hp => hpre p (List.mem_cons_of_mem _ hp))
    refine ⟨⟨ts, hid, percent_to_rssi (py_int q), py_int q, la, lo, ip⟩ :: recs,
      by simp [hlen], ?_⟩
    rw [List.cons_append]
    show rssi_loop ts la lo ip (tail ++ (helmet, c) :: rest)
      (log ++ [⟨ts, hid, percent_to_rssi (py_int q), py_int q, la, lo, ip⟩]) = _
    rw [hrec, List.append_assoc]
    rfl

/-- C7 counterexample: a bulk `/rssi` request with a valid first signal
and a non-numeric second signal is not rejected as a validation error:
the handler crashes mid-loop after the first helmet's record has already
been appended to the RSSI log, so state was mutated by the failed call. -/
theorem C7_counterexample :
    (receive_rssi ⟨some 1, some 2, some [("h1", .num 50), ("h2", .corrupt)]⟩
      "t" "ip" ⟨[], []⟩).1 = .crash ∧
    (receive_rssi ⟨some 1, some 2, some [("h1", .num 50), ("h2", .corrupt)]⟩
      "t" "ip" ⟨[], []⟩).2.rssi_log ≠ [] := by
  constructor <;> decide

/-- C7 (amended): requests missing required fields are rejected before any
state mutation: `receive_rssi` with a missing latitude or longitude, or a
missing or empty signals mapping, leaves both logs unchanged;
`receive_safe_coordinates` with a missing coordinate leaves the waypoint
and its log unchanged; the trigger POST with a missing or empty
`variable_name` leaves the IoT world unchanged.  A non-numeric signal
value, however, is not rejected as a ValidationError: `int(signal)`
raises mid-loop and the records of the preceding (numeric) entries have
already been appended to the RSSI log (the coordinates log stays
unchanged). -/
theorem C7_validation_and_partial_mutation :
    (∀ (req : RssiRequest) (ts ip : String) (logs : ServerLogs),
      req.latitude = none ∨ req.longitude = none →
        receive_rssi req ts ip logs = (.validation_error, logs)) ∧
    (∀ (la lo : ℚ) (ts ip : String) (logs : ServerLogs),
      receive_rssi ⟨some la, some lo, none⟩ ts ip logs =
        (.validation_error, logs) ∧
      receive_rssi ⟨some la, some lo, some []⟩ ts ip logs =
        (.validation_error, logs)) ∧
    (∀ (req : SafeCoordRequest) (now_ms : ℤ) (ip : String)
      (wp : WaypointState) (log : List WaypointLogRow),
      req.latitude = none ∨ req.longitude = none →
        receive_safe_coordinates req now_ms ip wp log =
          (.validation_error, wp, log)) ∧
    (∀ (name : Option String) (triggered : Bool) (triggered_by ts ip : String)
      (env : IotEnv), py_truthy name = none →
        trigger_variable_post name triggered triggered_by ts ip env =
          (.validation_error, env)) ∧
    (∀ (la lo : ℚ) (ts ip : String) (logs : ServerLogs)
      (pre : List (String × Cell)) (helmet : String) (c : Cell)
      (rest : List (String × Cell)),
      (∀ p ∈ pre, ∃ q, p.2 = Cell.num q) → (∀ q, c ≠ Cell.num q) →
      ∃ recs : List RssiRecord, recs.length = pre.length ∧
        receive_rssi ⟨some la, some lo, some (pre ++ (helmet, c) :: rest)⟩
            ts ip logs =
          (.crash, { logs with rssi_log := logs.rssi_log ++ recs })) := by
  refine ⟨?_, ?_, ?_, ?_, ?_⟩
  · intro req ts ip logs h
    rcases req with ⟨rlat, rlon, rsig⟩
    rcases h with h | h
    · subst h
      rfl
    · subst h
      cases rlat <;> rfl
  · intro la lo ts ip logs
    exact ⟨rfl, rfl⟩
  · intro req now_ms ip wp log h
    rcases req with ⟨rlat, rlon, rts, rsb⟩
    rcases h with h | h
    · subst h
      rfl
    · subst h
      cases rlat <;> rfl
  · intro name triggered triggered_by ts ip env h
    unfold trigger_variable_post
    rw [h]
  · intro la lo ts ip logs pre helmet c rest hpre hc
    obtain ⟨recs, hlen, hrec⟩ :=
      rssi_loop_crash ts la lo ip pre helmet c rest logs.rssi_log hpre hc
    refine ⟨recs, hlen, ?_⟩
    have hne : (pre ++ (helmet, c) :: rest).isEmpty = false := by
      cases pre <;> rfl
    simp only [receive_rssi, hne, hrec, Bool.false_eq_true, if_false]

/-- Witness for C7 (amended): each rejection at a concrete request with a
non-trivial starting state, and the partial mutation of the crashing
bulk request. -/
theorem C7_validation_witness :
    receive_rssi ⟨none, some 2, some [("h1", .num 50)]⟩ "t" "ip"
      ⟨[], [⟨"t0", 5, 6, "ip0"⟩]⟩ =
      (.validation_error, ⟨[], [⟨"t0", 5, 6, "ip0"⟩]⟩) ∧
    receive_rssi ⟨some 1, some 2, none⟩ "t" "ip" ⟨[], []⟩ =
      (.validation_error, ⟨[], []⟩) ∧
    receive_safe_coordinates ⟨some 1, none, none, none⟩ 7 "ip"
      ⟨some 3, some 4, some 5, some "app"⟩ [] =
      (.validation_error, ⟨some 3, some 4, some 5, some "app"⟩, []) ∧
    trigger_variable_post (some "") true "u" "t" "ip" ⟨⟨[], []⟩, none, []⟩ =
      (.validation_error, ⟨⟨[], []⟩, none, []⟩) ∧
    ∃ recs : List RssiRecord, recs.length = 1 ∧
      receive_rssi ⟨some 1, some 2, some [("h1", .num 50), ("h2", .corrupt)]⟩
          "t" "ip" ⟨[], []⟩ =
        (.crash, { (⟨[], []⟩ : ServerLogs) with rssi_log := [] ++ recs }) := by
  refine ⟨?_, ?_, ?_, ?_, ?_⟩
  · exact C7_validation_and_partial_mutation.1 _ "t" "ip" _ (Or.inl rfl)
  · exact (C7_validation_and_partial_mutation.2.1 1 2 "t" "ip" ⟨[], []⟩).1
  · exact C7_validation_and_partial_mutation.2.2.1 _ 7 "ip" _ [] (Or.inr rfl)
  · exact C7_validation_and_partial_mutation.2.2.2.1 (some "") true "u" "t" "ip"
      _ (by decide)
  · exact C7_validation_and_partial_mutation.2.2.2.2 1 2 "t" "ip" ⟨[], []⟩
      [("h1", .num 50)] "h2" .corrupt []
      (by intro p hp
          rw [List.mem_singleton] at hp
          subst hp
          exact ⟨50, rfl⟩)
      (by intro q h
          cases h)

/-- C8: reading a trigger variable that was never set is a success, not an
error: both the status endpoint and the GET trigger branch answer with
the default `triggered false, set_at absent, set_by absent`, and the
keyed state is returned unchanged (the read creates no key). -/
theorem C8_get_trigger_default (st : IotState) (name : String)
    (hname : name ≠ "") (habs : st.vars.lookup name = none) :
    get_trigger_status (some name) none st =
      (.var_result ⟨name, false, none, none⟩, st) ∧
    trigger_variable_get (some name) st =
      (.ok ⟨name, false, none, none⟩, st) := by
  have hpt : py_truthy (some name) = some name := by simp [py_truthy, hname]
  constructor
  · unfold get_trigger_status
    rw [hpt]
    dsimp only
    rw [habs]
  · unfold trigger_variable_get
    rw [hpt]
    dsimp only
    rw [habs]

/-- Witness for C8 at the key "nonexistent" over a state holding an
unrelated key. -/
theorem C8_get_trigger_default_witness :
    get_trigger_status (some "nonexistent") none
        ⟨[("other", ⟨true, "t", "u"⟩)], []⟩ =
      (.var_result ⟨"nonexistent", false, none, none⟩,
        ⟨[("other", ⟨true, "t", "u"⟩)], []⟩) ∧
    trigger_variable_get (some "nonexistent")
        ⟨[("other", ⟨true, "t", "u"⟩)], []⟩ =
      (.ok ⟨"nonexistent", false, none, none⟩,
        ⟨[("other", ⟨true, "t", "u"⟩)], []⟩) :=
  C8_get_trigger_default ⟨[("other", ⟨true, "t", "u"⟩)], []⟩ "nonexistent"
    (by decide) (by decide)

/-- C10: a confirmed reset whose scope string is none of "variables",
"buttons" or "all" changes neither map, still re-persists the unchanged
state as a fresh snapshot, and answers success with both reset flags
false instead of a validation error. -/
theorem C10_reset_unknown_scope (env : IotEnv) (reset_type : String)
    (h1 : reset_type ≠ "variables") (h2 : reset_type ≠ "buttons")
    (h3 : reset_type ≠ "all") :
    reset_iot_data "yes" reset_type env =
      (.ok false false, { env with snapshot := some env.state }) := by
  have hv : (reset_type = "variables" ∨ reset_type = "all") = False := by
    simp [h1, h3]
  have hb : (reset_type = "buttons" ∨ reset_type = "all") = False := by
    simp [h2, h3]
  simp [reset_iot_data, hv, hb]

/-- Witness for C10 at the scope "bogus" over a non-empty state. -/
theorem C10_reset_unknown_scope_witness :
    reset_iot_data "yes" "bogus"
        ⟨⟨[("a", ⟨true, "t", "u"⟩)], [("d", ⟨1, 2, 3, "t"⟩)]⟩, none, []⟩ =
      (.ok false false,
        ⟨⟨[("a", ⟨true, "t", "u"⟩)], [("d", ⟨1, 2, 3, "t"⟩)]⟩,
          some ⟨[("a", ⟨true, "t", "u"⟩)], [("d", ⟨1, 2, 3, "t"⟩)]⟩, []⟩) :=
  C10_reset_unknown_scope
    ⟨⟨[("a", ⟨true, "t", "u"⟩)], [("d", ⟨1, 2, 3, "t"⟩)]⟩, none, []⟩ "bogus"
    (by decide) (by decide) (by decide)

/-! ### Concurrency: the `setTrigger` critical section (iot_controller.py
lines 140-155) under N parallel callers

The POST branch of `trigger_variable` performs its three effects inside
`with state_lock:`: overwrite the key in memory, write the snapshot
(`save_state`), append the audit row.  To settle the concurrency claim,
each caller is a five-action thread (acquire, mutate, snapshot, journal,
release, in the source's order of effects with the journal row written
last inside the block) over a shared small-step state; only `acquire` is
guarded (a Python `Lock` blocks there), the other actions run whenever
the thread reaches them.  Mutual exclusion of the three effects is
proved from the lock discipline, not assumed.  Each caller's write is
tagged with its thread id, so a final state shows whose call survived;
the value written is atomic by the claim's own granularity (a whole
TriggerVariable record per call). -/

/-- Shared state of `n` concurrent `setTrigger` callers on one key:
the lock owner, each thread's program counter (0 before acquire, 5
done), the key's in-memory record, the audit log and the snapshot file,
the last three tagged by the writing thread. -/
structure LockState (n : ℕ) where
  lock : Option (Fin n)
  pc : Fin n → ℕ
  mem : Option (Fin n)
  log : List (Fin n)
  snap : Option (Fin n)

/-- All callers before their acquire; no record written yet, the snapshot
matching the (empty) memory. -/
def initLockState (n : ℕ) : LockState n :=
  ⟨none, fun _ => 0, none, [], none⟩

/-- One interleaving step: some thread executes its next action.  Only
`acquire` tests the lock; `release` frees it. -/
inductive SetTriggerStep (n : ℕ) : LockState n → LockState n → Prop
  | acquire (t : Fin n) (s : LockState n) :
      s.pc t = 0 → s.lock = none →
      SetTriggerStep n s
        { s with lock := some t, pc := Function.update s.pc t 1 }
  | mutate (t : Fin n) (s : LockState n) :
      s.pc t = 1 →
      SetTriggerStep n s
        { s with mem := some t, pc := Function.update s.pc t 2 }
  | snapshot_write (t : Fin n) (s : LockState n) :
      s.pc t = 2 →
      SetTriggerStep n s
        { s with snap := s.mem, pc := Function.update s.pc t 3 }
  | journal (t : Fin n) (s : LockState n) :
      s.pc t = 3 →
      SetTriggerStep n s
        { s with log := s.log ++ [t], pc := Function.update s.pc t 4 }
  | release (t : Fin n) (s : LockState n) :
      s.pc t = 4 →
      SetTriggerStep n s
        { s with lock := none, pc := Function.update s.pc t 5 }

/-- States reachable by interleaving the `n` callers from the start. -/
def SetTriggerReach (n : ℕ) (s : LockState n) : Prop :=
  Relation.ReflTransGen (SetTriggerStep n) (initLockState n) s

/-- The inductive invariant of the interleaving: the lock holder is the
only thread inside the critical section, the log holds exactly the
threads past their journal action with no duplicates, memory belongs to
the holder once it has mutated, and the snapshot agrees with memory
outside the window between a holder's mutate and its snapshot action. -/
structure LockInv {n : ℕ} (s : LockState n) : Prop where
  pc_le : ∀ t, s.pc t ≤ 5
  in_cs : ∀ t, 1 ≤ s.pc t → s.pc t ≤ 4 → s.lock = some t
  holder : ∀ t, s.lock = some t → 1 ≤ s.pc t ∧ s.pc t ≤ 4
  log_mem : ∀ t, t ∈ s.log ↔ 4 ≤ s.pc t
  log_count : ∀ t, s.log.count t ≤ 1
  mem_holder : ∀ t, s.lock = some t → 2 ≤ s.pc t → s.mem = some t
  snap_idle : s.lock = none → s.snap = s.mem
  snap_pre : ∀ t, s.lock = some t → s.pc t = 1 → s.snap = s.mem
  snap_post : ∀ t, s.lock = some t → 3 ≤ s.pc t → s.snap = s.mem
  mem_none : s.mem = none → ∀ t, s.pc t ≤ 1

theorem lockInv_init (n : ℕ) : LockInv (initLockState n) := by
  refine ⟨?_, ?_, ?_, ?_, ?_, ?_, ?_, ?_, ?_, ?_⟩ <;>
    simp [initLockState]

theorem lockInv_step {n : ℕ} {s s' : LockState n} (hs : LockInv s)
    (hstep : SetTriggerStep n s s') : LockInv s' := by
  cases hstep with
  | acquire t s hpc hlock =>
    refine ⟨?_, ?_, ?_, ?_, ?_, ?_, ?_, ?_, ?_, ?_⟩ <;> dsimp only
    · intro u
      rcases eq_or_ne u t with rfl | hu
      · simp [Function.update_same]
      · simpa [Function.update_noteq hu] using hs.pc_le u
    · intro u h1 h4
      rcases eq_or_ne u t with rfl | hu
      · rfl
      · rw [Function.update_noteq hu] at h1 h4
        have := hs.in_cs u h1 h4
        rw [hlock] at this
        cases this
    · intro u hu
      have ht : t = u := Option.some.inj hu
      subst ht
      simp [Function.update_same]
    · intro u
      rcases eq_or_ne u t with rfl | hu
      · rw [Function.update_same]
        constructor
        · intro hm
          have := (hs.log_mem u).mp hm
          omega
        · omega
      · rw [Function.update_noteq hu]
        exact hs.log_mem u
    · exact hs.log_count
    · intro u hu h2
      have ht : t = u := Option.some.inj hu
      subst ht
      rw [Function.update_same] at h2
      omega
    · intro h
      cases h
    · intro u hu _
      have ht : t = u := Option.some.inj hu
      exact hs.snap_idle hlock
    · intro u hu h3
      have ht : t = u := Option.some.inj hu
      subst ht
      rw [Function.update_same] at h3
      omega
    · intro hm u
      rcases eq_or_ne u t with rfl | hu
      · simp [Function.update_same]
      · rw [Function.update_noteq hu]
        exact hs.mem_none hm u
  | mutate t s hpc =>
    have hlock : s.lock = some t := hs.in_cs t (by omega) (by omega)
    refine ⟨?_, ?_, ?_, ?_, ?_, ?_, ?_, ?_, ?_, ?_⟩ <;> dsimp only
    · intro u
      rcases eq_or_ne u t with rfl | hu
      · simp [Function.update_same]
      · simpa [Function.update_noteq hu] using hs.pc_le u
    · intro u h1 h4
      rcases eq_or_ne u t with rfl | hu
      · exact hlock
      · rw [Function.update_noteq hu] at h1 h4
        exact hs.in_cs u h1 h4
    · intro u hu
      rw [hlock] at hu
      have ht : t = u := Option.some.inj hu
      subst ht
      simp [Function.update_same]
    · intro u
      rcases eq_or_ne u t with rfl | hu
      · rw [Function.update_same]
        constructor
        · intro hm
          have := (hs.log_mem u).mp hm
          omega
        · omega
      · rw [Function.update_noteq hu]
        exact hs.log_mem u
    · exact hs.log_count
    · intro u hu _
      rw [hlock] at hu
      have ht : t = u := Option.some.inj hu
      subst ht
      rfl
    · intro h
      rw [hlock] at h
      cases h
    · intro u hu hpcu
      rw [hlock] at hu
      have ht : t = u := Option.some.inj hu
      subst ht
      rw [Function.update_same] at hpcu
      omega
    · intro u hu hpcu
      rw [hlock] at hu
      have ht : t = u := Option.some.inj hu
      subst ht
      rw [Function.update_same] at hpcu
      omega
    · intro hm
      cases hm
  | snapshot_write t s hpc =>
    have hlock : s.lock = some t := hs.in_cs t (by omega) (by omega)
    have hmem : s.mem = some t := hs.mem_holder t hlock (by omega)
    refine ⟨?_, ?_, ?_, ?_, ?_, ?_, ?_, ?_, ?_, ?_⟩ <;> dsimp only
    · intro u
      rcases eq_or_ne u t with rfl | hu
      · simp [Function.update_same]
      · simpa [Function.update_noteq hu] using hs.pc_le u
    · intro u h1 h4
      rcases eq_or_ne u t with rfl | hu
      · exact hlock
      · rw [Function.update_noteq hu] at h1 h4
        exact hs.in_cs u h1 h4
    · intro u hu
      rw [hlock] at hu
      have ht : t = u := Option.some.inj hu
      subst ht
      simp [Function.update_same]
    · intro u
      rcases eq_or_ne u t with rfl | hu
      · rw [Function.update_same]
        constructor
        · intro hm
          have := (hs.log_mem u).mp hm
          omega
        · omega
      · rw [Function.update_noteq hu]
        exact hs.log_mem u
    · exact hs.log_count
    · intro u hu _
      rw [hlock] at hu
      have ht : t = u := Option.some.inj hu
      subst ht
      exact hmem
    · intro _
      rfl
    · intro u _ _
      rfl
    · intro u _ _
      rfl
    · intro hm
      rw [hmem] at hm
      cases hm
  | journal t s hpc =>
    have hlock : s.lock = some t := hs.in_cs t (by omega) (by omega)
    have hmem : s.mem = some t := hs.mem_holder t hlock (by omega)
    have hsnap : s.snap = s.mem := hs.snap_post t hlock (by omega)
    refine ⟨?_, ?_, ?_, ?_, ?_, ?_, ?_, ?_, ?_, ?_⟩ <;> dsimp only
    · intro u
      rcases eq_or_ne u t with rfl | hu
      · simp [Function.update_same]
      · simpa [Function.update_noteq hu] using hs.pc_le u
    · intro u h1 h4
      rcases eq_or_ne u t with rfl | hu
      · exact hlock
      · rw [Function.update_noteq hu] at h1 h4
        exact hs.in_cs u h1 h4
    · intro u hu
      rw [hlock] at hu
      have ht : t = u := Option.some.inj hu
      subst ht
      simp [Function.update_same]
    · intro u
      rcases eq_or_ne u t with rfl | hu
      · rw [Function.update_same]
        simp
      · rw [Function.update_noteq hu]
        simp only [List.mem_append, List.mem_singleton]
        constructor
        · intro hm
          rcases hm with hm | hm
          · exact (hs.log_mem u).mp hm
          · exact absurd hm hu
        · intro hm
          exact Or.inl ((hs.log_mem u).mpr hm)
    · intro u
      rw [List.count_append]
      rcases eq_or_ne u t with rfl | hu
      · have hnot : u ∉ s.log := by
          intro hm
          have := (hs.log_mem u).mp hm
          omega
        rw [List.count_eq_zero.mpr hnot]
        simp
      · have : List.count u [t] = 0 := by
          rw [List.count_eq_zero]
          simp [hu]
        rw [this]
        simpa using hs.log_count u
    · intro u hu _
      rw [hlock] at hu
      have ht : t = u := Option.some.inj hu
      subst ht
      exact hmem
    · intro h
      rw [hlock] at h
      cases h
    · intro u hu hpcu
      rw [hlock] at hu
      have ht : t = u := Option.some.inj hu
      subst ht
      rw [Function.update_same] at hpcu
      omega
    · intro u _ _
      exact hsnap
    · intro hm
      rw [hmem] at hm
      cases hm
  | release t s hpc =>
    have hlock : s.lock = some t := hs.in_cs t (by omega) (by omega)
    have hmem : s.mem = some t := hs.mem_holder t hlock (by omega)
    have hsnap : s.snap = s.mem := hs.snap_post t hlock (by omega)
    refine ⟨?_, ?_, ?_, ?_, ?_, ?_, ?_, ?_, ?_, ?_⟩ <;> dsimp only
    · intro u
      rcases eq_or_ne u t with rfl | hu
      · simp [Function.update_same]
      · simpa [Function.update_noteq hu] using hs.pc_le u
    · intro u h1 h4
      rcases eq_or_ne u t with rfl | hu
      · rw [Function.update_same] at h1 h4
        omega
      · rw [Function.update_noteq hu] at h1 h4
        have := hs.in_cs u h1 h4
        rw [hlock] at this
        have ht : t = u := Option.some.inj this
        exact absurd ht.symm hu
    · intro u hu
      cases hu
    · intro u
      rcases eq_or_ne u t with rfl | hu
      · rw [Function.update_same]
        constructor
        · intro _
          omega
        · intro _
          exact (hs.log_mem u).mpr (by omega)
      · rw [Function.update_noteq hu]
        exact hs.log_mem u
    · exact hs.log_count
    · intro u hu
      cases hu
    · intro _
      exact hsnap
    · intro u hu
      cases hu
    · intro u hu
      cases hu
    · intro hm
      rw [hmem] at hm
      cases hm

theorem lockInv_reach {n : ℕ} {s : LockState n}
    (h : SetTriggerReach n s) : LockInv s := by
  induction h with
  | refl => exact lockInv_init n
  | tail hreach hstep ih => exact lockInv_step ih hstep

/-- C9: under `n` concurrent `setTrigger` callers on one key, in every
reachable state where all callers have finished, the key holds the whole
record written by exactly one of the calls, the audit log holds exactly
one record per call (`n` in total), and the snapshot agrees with memory:
the three effects of each call act as one critical section with respect
to the other mutators. -/
theorem C9_set_trigger_atomicity (n : ℕ) (s : LockState n) (hn : 0 < n)
    (hreach : SetTriggerReach n s) (hdone : ∀ t, s.pc t = 5) :
    (∃ t, s.mem = some t) ∧ (∀ t, s.log.count t = 1) ∧
      s.log.length = n ∧ s.snap = s.mem := by
  have hInv := lockInv_reach hreach
  have hlock : s.lock = none := by
    cases hl : s.lock with
    | none => rfl
    | some t =>
      have h := hInv.holder t hl
      rw [hdone t] at h
      omega
  have hmemlog : ∀ t : Fin n, t ∈ s.log := by
    intro t
    refine (hInv.log_mem t).mpr ?_
    rw [hdone t]
    omega
  have hcount : ∀ t : Fin n, s.log.count t = 1 := by
    intro t
    have h1 := hInv.log_count t
    have h2 : 0 < s.log.count t := List.count_pos_iff.mpr (hmemlog t)
    omega
  have hmem : ∃ t, s.mem = some t := by
    cases hm : s.mem with
    | some t => exact ⟨t, rfl⟩
    | none =>
      have h := hInv.mem_none hm ⟨0, hn⟩
      rw [hdone ⟨0, hn⟩] at h
      omega
  have hlen : s.log.length = n := by
    have h1 : ∀ t : Fin n, (↑s.log : Multiset (Fin n)).count t = 1 := by
      intro t
      rw [Multiset.coe_count]
      exact hcount t
    have h2 : (↑s.log : Multiset (Fin n)).toFinset = Finset.univ := by
      ext t
      simp only [Multiset.mem_toFinset, Multiset.mem_coe, Finset.mem_univ, iff_true]
      exact hmemlog t
    have h3 := Multiset.toFinset_sum_count_eq (↑s.log : Multiset (Fin n))
    rw [h2] at h3
    have h4 : ∑ t : Fin n, (↑s.log : Multiset (Fin n)).count t = n := by
      rw [Finset.sum_congr rfl (fun t _ => h1 t)]
      simp
    calc s.log.length = Multiset.card (↑s.log : Multiset (Fin n)) := by
          rw [Multiset.coe_card]
      _ = ∑ t : Fin n, (↑s.log : Multiset (Fin n)).count t := h3.symm
      _ = n := h4
  exact ⟨hmem, hcount, hlen, hInv.snap_idle hlock⟩

/-- The five intermediate states of one caller's complete run. -/
def demo0 : LockState 1 := initLockState 1

def demo1 : LockState 1 :=
  { demo0 with lock := some 0, pc := Function.update demo0.pc 0 1 }

def demo2 : LockState 1 :=
  { demo1 with mem := some 0, pc := Function.update demo1.pc 0 2 }

def demo3 : LockState 1 :=
  { demo2 with snap := demo2.mem, pc := Function.update demo2.pc 0 3 }

def demo4 : LockState 1 :=
  { demo3 with log := demo3.log ++ [0], pc := Function.update demo3.pc 0 4 }

def demo5 : LockState 1 :=
  { demo4 with lock := none, pc := Function.update demo4.pc 0 5 }

/-- Witness for C9: one caller run to completion. -/
theorem C9_set_trigger_atomicity_witness :
    (∃ t, demo5.mem = some t) ∧ (∀ t, demo5.log.count t = 1) ∧
      demo5.log.length = 1 ∧ demo5.snap = demo5.mem :=
  C9_set_trigger_atomicity 1 demo5 (by decide)
    (Relation.ReflTransGen.tail
      (Relation.ReflTransGen.tail
        (Relation.ReflTransGen.tail
          (Relation.ReflTransGen.tail
            (Relation.ReflTransGen.tail Relation.ReflTransGen.refl
              (SetTriggerStep.acquire 0 demo0 (by decide) (by decide)))
            (SetTriggerStep.mutate 0 demo1 (by decide)))
          (SetTriggerStep.snapshot_write 0 demo2 (by decide)))
        (SetTriggerStep.journal 0 demo3 (by decide)))
      (SetTriggerStep.release 0 demo4 (by decide)))
    (by decide)
